import Mathlib

/-!
Verification development for the Fingerprint repository's offline renderer.

The JavaScript sources are shallowly embedded: JS numbers are modelled as `ℚ`
(and `ℤ`/`ℕ` where the code only ever holds integers), JS strings as `String`,
mutable state (the seeded LCG `_seed`, the canvas world, the filesystem) as
explicit state passing.  Platform primitives that the code calls but does not
define (Math.cos/sin/sqrt, the regexp engine, Date parsing, JS
number-to-string coercion) are section parameters: every theorem below is
proved for all instantiations of those primitives.
-/

namespace Fingerprint

/-! ## Seeded linear-congruential generator (render-cli-v4, VideoRenderer)

`let _seed = 42; function srand(s) { _seed = s; }`
`function rng() { _seed = (_seed * 16807) % 2147483647; return (_seed - 1) / 2147483646; }`
-/

/-- One LCG step: `_seed = (_seed * 16807) % 2147483647`. -/
def rngStep (s : ℕ) : ℕ := s * 16807 % 2147483647

/-- JS `rng()` mutates the seed and returns `(_seed - 1) / 2147483646`. -/
def rng (s : ℕ) : ℚ × ℕ :=
  let s' := rngStep s
  (((s' : ℚ) - 1) / 2147483646, s')

/-- Seed derivation in render-cli-v4 `main`:
`srand(vid.split('').reduce((a, c) => a + c.charCodeAt(0), 1))`. -/
def seedOfVid (vid : String) : ℕ :=
  vid.toList.foldl (fun a c => a + c.toNat) 1

/-! ## Scared timing (render-cli-v4 `scaredTiming`) -/

/-- Importance tag of a block: `'normal' | 'flash' | 'linger'`. -/
inductive Importance | normal | flash | linger
deriving DecidableEq, Repr, Inhabited

/-- Model of `scaredTiming(index, total, lineCount, importance)` from render-cli-v4,
with the mutable `_seed` made explicit. -/
def scaredTiming (index total lineCount : ℕ) (importance : Importance) (s : ℕ) :
    ℚ × ℕ :=
  let progress : ℚ := (index : ℚ) / (max total 1 : ℕ)
  let curve : ℚ :=
    if progress < 0.15 then 1.3
    else if progress < 0.5 then 0.75
    else if progress < 0.75 then 0.6
    else 1.1 + (progress - 0.75) * 4
  let base : ℚ := 0.3 + (lineCount : ℚ) * 0.22
  let impMult : ℚ :=
    match importance with
    | .flash => 0.35
    | .linger => 2.2
    | .normal => 1.0
  let (r, s') := rng s
  let jitter : ℚ := 0.75 + r * 0.5
  (max 0.25 (base * curve * impMult * jitter), s')

/-! ## Frame timing (render-cli-v2 / render-cli-v4 `main` timing loop)

v2 (and the v1 renderer): `LINE_FADE = 8; LINE_GAP = 6; BLOCK_BLACK = 12; FADE_OUT = 10`.
v4: `BLOCK_BLACK = 8`, others identical.  `FPS = 30`.
-/

structure TimingConsts where
  lineFade : ℤ
  lineGap : ℤ
  blockBlack : ℤ
  fadeOut : ℤ
deriving DecidableEq, Repr

def v2Consts : TimingConsts := ⟨8, 6, 12, 10⟩
def v4Consts : TimingConsts := ⟨8, 6, 8, 10⟩

/-- JavaScript `Math.round` on the rational model: `Math.round(x) = ⌊x + 1/2⌋`,
which is Mathlib's `round`. -/
def jsRound (q : ℚ) : ℤ := round q

/-- Per-block frame duration:
`lines.length * LINE_GAP + LINE_FADE + Math.round(hold * FPS) + FADE_OUT + BLOCK_BLACK`.
A block is summarised by its line count and its hold in seconds. -/
def blockDur (tc : TimingConsts) (b : ℕ × ℚ) : ℤ :=
  (b.1 : ℤ) * tc.lineGap + tc.lineFade + jsRound (b.2 * 30) + tc.fadeOut + tc.blockBlack

structure BlockTiming where
  start : ℤ
  duration : ℤ
  linesFrames : ℤ
  holdFrames : ℤ
deriving DecidableEq, Repr

/-- The `blockTimings` loop: starting from the running frame counter `acc`,
push `{start: totalFrames, duration, linesFrames, holdFrames}` for every block
and advance the counter.  Returns the timing list and the final counter. -/
def mkTimings (tc : TimingConsts) : List (ℕ × ℚ) → ℤ → List BlockTiming × ℤ
  | [], acc => ([], acc)
  | b :: rest, acc =>
    let lf := (b.1 : ℤ) * tc.lineGap + tc.lineFade
    let hf := jsRound (b.2 * 30)
    let dur := lf + hf + tc.fadeOut + tc.blockBlack
    let (ts, tot) := mkTimings tc rest (acc + dur)
    (⟨acc, dur, lf, hf⟩ :: ts, tot)

/-- Total frame count `totalFrames`: the loop total plus the trailing `totalFrames += 30`. -/
def totalFramesOf (tc : TimingConsts) (bs : List (ℕ × ℚ)) : ℤ :=
  (mkTimings tc bs 0).2 + 30

/-- Whether global frame `f` falls in the half-open interval of timing `bt`. -/
def inBlock (f : ℤ) (bt : BlockTiming) : Bool :=
  bt.start ≤ f ∧ f < bt.start + bt.duration

/-- Number of blocks whose interval contains frame `f`. -/
def activeCount (ts : List BlockTiming) (f : ℤ) : ℕ :=
  ts.countP (inBlock f)

/-! ## Procedural world (VideoRenderer `generateNetwork` / `updateNodes`)

`W = 1920; H = 1080; CX = W/2; CY = H/2`.  `Math.cos`, `Math.sin`, `Math.sqrt`
and `Math.PI` are platform primitives, taken as parameters `cosF sinF sqrtF piQ`.
-/

def CX : ℚ := 960
def CY : ℚ := 540
def Wq : ℚ := 1920
def Hq : ℚ := 1080

structure Node where
  x : ℚ
  y : ℚ
  r : ℚ
  bits : ℚ
  label : String
  orbit : ℚ
  angle : ℚ
  speed : ℚ
  base : Bool
deriving DecidableEq, Repr

instance : Inhabited Node := ⟨⟨0, 0, 0, 0, "", 0, 0, 0, false⟩⟩

structure Conn where
  a : ℕ
  b : ℕ
  dist : ℚ
deriving DecidableEq, Repr

structure OrbitRing where
  radius : ℚ
  width : ℚ
  speed : ℚ
deriving DecidableEq, Repr

structure Particle where
  x : ℚ
  y : ℚ
  vx : ℚ
  vy : ℚ
  r : ℚ
  life : ℚ
deriving DecidableEq, Repr

structure World where
  nodes : List Node
  connections : List Conn
  particles : List Particle
  rings : List OrbitRing
deriving DecidableEq, Repr

/-- One entropy contribution `{label, bits, present}`. -/
structure Contribution where
  label : String
  bits : ℚ
  present : Bool
deriving DecidableEq, Repr

/-- The entropy record consumed by `generateNetwork`. -/
structure Entropy where
  totalBits : ℚ
  contributions : List Contribution
deriving DecidableEq, Repr

/-- State-threading map with an index, for loops that consume the rng. -/
def mapStateIdx (f : ℕ → α → ℕ → β × ℕ) : List α → ℕ → ℕ → List β × ℕ
  | [], _, s => ([], s)
  | a :: as, i, s =>
    let (b, s') := f i a s
    let (bs, s'') := mapStateIdx f as (i + 1) s'
    (b :: bs, s'')

/-- Run a state-threading generator `n` times. -/
def replicateState (f : ℕ → α × ℕ) : ℕ → ℕ → List α × ℕ
  | 0, s => ([], s)
  | n + 1, s =>
    let (a, s') := f s
    let (as, s'') := replicateState f n s'
    (a :: as, s'')

section WorldGen

variable (cosF sinF sqrtF : ℚ → ℚ) (piQ : ℚ)

/-- Data-driven node `i` of the loop over present contributions
(`len` is `contribs.length`, `maxBits` precomputed). -/
def dataNode (maxBits : ℚ) (len : ℕ) (i : ℕ) (c : Contribution) (s : ℕ) :
    Node × ℕ :=
  let layer : ℕ := i / 4
  let inLayer : ℚ := ((i % 4 : ℕ) : ℚ) + (if layer > 0 then 0.5 else 0)
  let count : ℕ := min (4 + layer) (len - layer * 4)
  let angle : ℚ := inLayer / ((max count 4 : ℕ) : ℚ) * piQ * 2 + (layer : ℚ) * 0.4
  let dist : ℚ := 140 + (layer : ℚ) * 130 + c.bits / maxBits * 60
  let r : ℚ := 2 + c.bits / maxBits * 5
  let (rv, s') := rng s
  ({ x := CX + cosF angle * dist, y := CY + sinF angle * dist, r := r,
     bits := c.bits, label := c.label, orbit := dist, angle := angle,
     speed := 0.002 + rv * 0.004, base := false }, s')

/-- One ambient decorative node (four rng draws, in source order). -/
def ambientNode (s : ℕ) : Node × ℕ :=
  let (r1, s1) := rng s
  let angle : ℚ := r1 * piQ * 2
  let (r2, s2) := rng s1
  let dist : ℚ := 80 + r2 * 420
  let (r3, s3) := rng s2
  let (r4, s4) := rng s3
  ({ x := CX + cosF angle * dist, y := CY + sinF angle * dist,
     r := 0.5 + r3 * 1.5, bits := 0, label := "", orbit := dist,
     angle := angle, speed := 0.001 + r4 * 0.005, base := false }, s4)

/-- Ordered pairs `(i, j)` with `i < j < n`, in the double-loop order. -/
def pairList (n : ℕ) : List (ℕ × ℕ) :=
  (List.range n).flatMap fun i =>
    ((List.range n).filter fun j => i < j).map fun j => (i, j)

/-- The connection loop.  `rng` is consulted only when the short-circuit
`d < 220 && (bits > 0 || bits > 0 || rng() > 0.7)` reaches it. -/
def genConnections (ns : List Node) (s : ℕ) : List Conn × ℕ :=
  (pairList ns.length).foldl
    (fun acc pr =>
      let ni := ns.getD pr.1 default
      let nj := ns.getD pr.2 default
      let dx := ni.x - nj.x
      let dy := ni.y - nj.y
      let d := sqrtF (dx * dx + dy * dy)
      if d < 220 then
        if ni.bits > 0 ∨ nj.bits > 0 then
          (acc.1 ++ [⟨pr.1, pr.2, d⟩], acc.2)
        else
          let (rv, s') := rng acc.2
          if rv > 0.7 then (acc.1 ++ [⟨pr.1, pr.2, d⟩], s') else (acc.1, s')
      else acc)
    ([], s)

/-- One floating particle (six rng draws, in source field order). -/
def genParticle (s : ℕ) : Particle × ℕ :=
  let (r1, s1) := rng s
  let (r2, s2) := rng s1
  let (r3, s3) := rng s2
  let (r4, s4) := rng s3
  let (r5, s5) := rng s4
  let (r6, s6) := rng s5
  ({ x := r1 * Wq, y := r2 * Hq, vx := (r3 - 0.5) * 0.5, vy := (r4 - 0.5) * 0.5,
     r := 0.5 + r5 * 1.5, life := r6 }, s6)

/-- Model of `generateNetwork(data, entropy)`: seed reset to 42, then nodes,
connections, rings and particles generated from the seeded stream.
(The `data` argument is unused in the source body.) -/
def generateNetwork (entropy : Entropy) : World :=
  let s0 : ℕ := 42
  let contribs := entropy.contributions.filter (·.present)
  let maxBits : ℚ := (contribs.map (·.bits)).foldr max 1
  let center : Node :=
    { x := CX, y := CY, r := 6, bits := entropy.totalBits, label := "",
      orbit := 0, angle := 0, speed := 0, base := true }
  let (dataNodes, s1) :=
    mapStateIdx (dataNode cosF sinF piQ maxBits contribs.length) contribs 0 s0
  let (ambient, s2) := replicateState (ambientNode cosF sinF piQ) 30 s1
  let ns := center :: (dataNodes ++ ambient)
  let (conns, s3) := genConnections sqrtF ns s2
  let ringList : List OrbitRing :=
    [⟨140, 0.5, 0.003⟩, ⟨270, 0.3, -0.002⟩, ⟨400, 0.2, 0.001⟩]
  let (parts, _) := replicateState genParticle 60 s3
  { nodes := ns, connections := conns, particles := parts, rings := ringList }

/-- Per-frame node step (`updateNodes` body, `i ≥ 1`):
`n.angle += n.speed; n.x = CX + cos(n.angle) * n.orbit; n.y = CY + sin(n.angle) * n.orbit`. -/
def stepNode (n : Node) : Node :=
  let a := n.angle + n.speed
  { n with angle := a, x := CX + cosF a * n.orbit, y := CY + sinF a * n.orbit }

/-- Per-frame particle step with wraparound at the frame bounds. -/
def stepParticle (p : Particle) : Particle :=
  let x1 := p.x + p.vx
  let y1 := p.y + p.vy
  let x2 := if x1 < 0 then Wq else if x1 > Wq then 0 else x1
  let y2 := if y1 < 0 then Hq else if y1 > Hq then 0 else y1
  { p with x := x2, y := y2, life := p.life + 0.003 }

/-- Model of `updateNodes(t)`: rotates every node except `nodes[0]` and advances the
particles; the `t` argument is unused in the source body. -/
def updateNodes (w : World) : World :=
  { w with
    nodes :=
      match w.nodes with
      | [] => []
      | c :: rest => c :: rest.map (stepNode cosF sinF)
    particles := w.particles.map stepParticle }

end WorldGen

/-! ## JS coercion helpers -/

/-- JS `a || b` for an optional string (`undefined` and `''` are falsy). -/
def jsOrS (a : Option String) (b : String) : String :=
  match a with
  | some s => if s = "" then b else s
  | none => b

/-- JS `a || b` for an optional number (`undefined` and `0` are falsy). -/
def jsOrQ (a : Option ℚ) (b : ℚ) : ℚ :=
  match a with
  | some x => if x = 0 then b else x
  | none => b

/-- JS `a || b` for an optional natural (`undefined` and `0` are falsy). -/
def jsOrN (a : Option ℕ) (b : ℕ) : ℕ :=
  match a with
  | some n => if n = 0 then b else n
  | none => b

/-- JS `(x || '?')` string rendering of an optional integer field. -/
def numOrQmark (a : Option ℕ) : String :=
  match a with
  | some n => if n = 0 then "?" else toString n
  | none => "?"

/-- JS `s.includes(t)` (substring test). -/
def strContains (s t : String) : Bool :=
  (List.range (s.length + 1)).any fun i => t.toList.isPrefixOf (s.toList.drop i)

/-- JS `s.replace(pat, rep)` with a string pattern: first occurrence only. -/
def replaceFirst (s pat rep : String) : String :=
  match s.splitOn pat with
  | [] => s
  | [x] => x
  | x :: y :: rest => x ++ rep ++ String.intercalate pat (y :: rest)

/-- JS `String(n).padStart(2, '0')` for a (nonnegative) integer. -/
def pad2 (n : ℤ) : String :=
  let s := toString n
  if s.length < 2 then "0" ++ s else s

/-- JS `x.toFixed(1)` on the rational model. -/
def toFixed1 (q : ℚ) : String :=
  if q < 0 then
    let n := (round (-q * 10)).toNat
    "-" ++ toString (n / 10) ++ "." ++ toString (n % 10)
  else
    let n := (round (q * 10)).toNat
    toString (n / 10) ++ "." ++ toString (n % 10)

/-- JS `x.toFixed(2)` on the rational model. -/
def toFixed2 (q : ℚ) : String :=
  if q < 0 then
    let n := (round (-q * 100)).toNat
    "-" ++ toString (n / 100) ++ "." ++ (if n % 100 < 10 then "0" else "") ++ toString (n % 100)
  else
    let n := (round (q * 100)).toNat
    toString (n / 100) ++ "." ++ (if n % 100 < 10 then "0" else "") ++ toString (n % 100)

/-- JS `x.toFixed(0)` on the rational model. -/
def toFixed0 (q : ℚ) : String :=
  if q < 0 then "-" ++ toString (round (-q)).toNat
  else toString (round q).toNat

/-- JS `getUTCHours()` of an epoch-milliseconds timestamp. -/
def jsUTCHours (ms : ℤ) : ℤ := ms.fdiv 3600000 % 24

/-! ## Profile Record data model (inputs of `buildMonolog`, render-cli-v4)

Optional JS fields are `Option`; `fpData.basic || {}` is `.getD emptyBasic`.
-/

structure ParsedUA where
  browser : String
  browserVersion : String
  os : String
  osVersion : String
  mobile : Bool
deriving DecidableEq, Repr

structure Device where
  parsed : ParsedUA
  deviceTier : String
  deviceGuess : String
deriving DecidableEq, Repr

structure LocationInfo where
  country : String
  market : String
deriving DecidableEq, Repr

structure IncomeInfo where
  bracket : String
  estimate : String
deriving DecidableEq, Repr

/-- Field `techLiteracy.score`; an absent score is represented as `0`
(both are falsy in `tech.score || 50`). -/
structure TechInfo where
  score : ℕ
deriving DecidableEq, Repr

structure ProfEntry where
  label : String
  confidence : ℚ
deriving DecidableEq, Repr

structure Profession where
  primary : String
  all : List ProfEntry
deriving DecidableEq, Repr

structure Profile where
  device : Device
  location : LocationInfo
  income : IncomeInfo
  techLiteracy : TechInfo
  profession : Profession
deriving DecidableEq, Repr

structure BasicData where
  timezoneOffset : Option ℤ
  platform : Option String
  deviceMemory : Option ℕ
  hardwareConcurrency : Option ℕ
  devicePixelRatio : Option ℚ
  colorDepth : Option ℕ
  maxTouchPoints : Option ℕ
  doNotTrack : Option String
  cookieEnabled : Option Bool
  userAgent : Option String
  language : Option String
  timezone : Option String
  screenWidth : Option ℕ
  screenHeight : Option ℕ
  connectionType : Option String
  connectionDownlink : Option ℚ
  connectionSaveData : Option Bool
deriving DecidableEq, Repr

def emptyBasic : BasicData :=
  ⟨none, none, none, none, none, none, none, none, none, none, none, none,
   none, none, none, none, none⟩

structure BatteryData where
  level : Option ℚ
  charging : Bool
deriving DecidableEq, Repr

structure MediaData where
  videoinput : Option ℕ
  audioinput : Option ℕ
deriving DecidableEq, Repr

structure CatCounts where
  advertising : ℕ
  social : ℕ
  data_brokers : ℕ
deriving DecidableEq, Repr

structure TopTracker where
  domain : String
  count : ℕ
  category : String
deriving DecidableEq, Repr

/-- The extension cookie record consumed by the monolog builders. -/
structure CookieData where
  total : ℕ
  trackerCount : ℕ
  trackerPercentage : Option ℚ
  byCategory : Option CatCounts
  topTrackers : List TopTracker
  lifetimesZombie : Option ℕ
deriving DecidableEq, Repr

structure FpData where
  basic : Option BasicData
  advRendererUnmasked : Option String
  advFontsComp : Option (List String)
  advVisitorId : Option String
  advComponentsVisitorId : Option String
  webglRenderer : Option String
  fonts : Option (List String)
  battery : Option BatteryData
  mediaDevices : Option MediaData
  extensionCookies : Option CookieData
  collectedAt : Option String
  generatedAt : Option String
deriving DecidableEq, Repr

structure UniquenessInfo where
  percent : ℚ
  populationSize : String
deriving DecidableEq, Repr

structure PricingFactor where
  label : String
  value : String
  effect : String
deriving DecidableEq, Repr

structure Pricing where
  cpm : ℚ
  annualValue : ℚ
  factors : List PricingFactor
deriving DecidableEq, Repr

/-- Everything `buildMonolog(fpData, profile, entropy, uniqueness, pricing)` reads. -/
structure MonologInput where
  fp : FpData
  profile : Profile
  entropy : Entropy
  uniqueness : UniquenessInfo
  pricing : Pricing
deriving DecidableEq, Repr

/-- Platform primitives the builder calls: the regexp engine
(`gpu.match(...)` capture, empty when no match), the `RTX 30/40/50` test,
`Date` parsing to epoch ms, host-local `getMinutes`, and JS
number-to-string coercion for non-integer numbers. -/
structure JsEnv where
  chipOf : String → String
  nvidiaOf : String → String
  amdOf : String → String
  rtxBig : String → Bool
  parseDateMs : String → ℤ
  minutesOf : String → ℕ
  numToStr : ℚ → String

/-! ## `buildMonolog` (render-cli-v4)

The builder pushes `{lines: lines.filter(Boolean), importance}` records onto a
mutable array via `add`; here each numbered section is a list and the result
is their concatenation in source order.
-/

/-- A monolog block: `{ lines: string[], importance: 'normal'|'flash'|'linger' }`. -/
structure Block where
  lines : List String
  importance : Importance
deriving DecidableEq, Repr

/-- The builder helper `add(lines, importance)`: `lines.filter(Boolean)` drops empty strings. -/
def mkBlock (lines : List String) (imp : Importance) : Block :=
  ⟨lines.filter (fun l => l ≠ ""), imp⟩

/-- Rendering of a raw optional integer field into a concatenated string
(`undefined` renders as `"undefined"`; the branches below only reach it
when the field is present). -/
def optNatStr (a : Option ℕ) : String :=
  match a with
  | some n => toString n
  | none => "undefined"

/-- The local bindings at the top of `buildMonolog`. -/
structure Derived where
  d : BasicData
  gpu : String
  fonts : List String
  battery : BatteryData
  media : MediaData
  chip : String
  nvidia : String
  amd : String
  collectedAt : String
  localHour : Option ℤ
  designFonts : List String
  devFonts : List String
  adobeFonts : List String
  isMobile : Bool
  isApple : Bool
  isLinux : Bool
  isWindows : Bool
  isChromeOS : Bool
  isPremium : Bool
  hasHighMemory : Bool
  hasHighCores : Bool
  hasRetina : Bool
  hasWideColor : Bool
  hasWebcam : Bool
  hasMic : Bool
  hasDNT : Bool
  hasCookies : Bool
  isFirefox : Bool
  isSafari : Bool
  isBrave : Bool
  isChrome : Bool
  techScore : ℕ

def designFontList : List String :=
  ["Futura", "Avenir", "Avenir Next", "Gill Sans", "Helvetica Neue",
   "Open Sans", "Proxima Nova", "Baskerville", "Didot", "Optima"]

def devFontList : List String :=
  ["Menlo", "Monaco", "Consolas", "Fira Code", "Source Code Pro", "SF Mono",
   "Courier New", "Ubuntu Mono", "DejaVu Sans Mono"]

def adobeFontList : List String :=
  ["Myriad Pro", "Minion Pro", "Adobe Garamond", "Kozuka Gothic", "Adobe Caslon"]

def derive (env : JsEnv) (inp : MonologInput) : Derived :=
  let d := inp.fp.basic.getD emptyBasic
  let gpu := jsOrS inp.fp.advRendererUnmasked (jsOrS inp.fp.webglRenderer "")
  let fonts :=
    match inp.fp.fonts with
    | some l => l
    | none => inp.fp.advFontsComp.getD []
  let battery := inp.fp.battery.getD ⟨none, false⟩
  let media := inp.fp.mediaDevices.getD ⟨none, none⟩
  let dev := inp.profile.device
  let collectedAt := jsOrS inp.fp.collectedAt (jsOrS inp.fp.generatedAt "")
  let localHour : Option ℤ :=
    if collectedAt ≠ "" then
      match d.timezoneOffset with
      | some off => some (jsUTCHours (env.parseDateMs collectedAt - off * 60000))
      | none => none
    else none
  let isBrave := strContains (d.userAgent.getD "") "Brave"
  { d := d, gpu := gpu, fonts := fonts, battery := battery, media := media,
    chip := env.chipOf gpu, nvidia := env.nvidiaOf gpu, amd := env.amdOf gpu,
    collectedAt := collectedAt, localHour := localHour,
    designFonts := fonts.filter (designFontList.contains ·),
    devFonts := fonts.filter (devFontList.contains ·),
    adobeFonts := fonts.filter (adobeFontList.contains ·),
    isMobile := dev.parsed.mobile,
    isApple := dev.parsed.os == "macOS" || dev.parsed.os == "iOS",
    isLinux := dev.parsed.os == "Linux",
    isWindows := dev.parsed.os == "Windows",
    isChromeOS := (match d.platform with
      | some p => strContains p "CrOS"
      | none => false),
    isPremium := dev.deviceTier == "Premium",
    hasHighMemory := d.deviceMemory.getD 0 ≥ 8,
    hasHighCores := d.hardwareConcurrency.getD 0 ≥ 8,
    hasRetina := jsOrQ d.devicePixelRatio 1 ≥ 2,
    hasWideColor := d.colorDepth.getD 0 ≥ 30,
    hasWebcam := media.videoinput.getD 0 > 0,
    hasMic := media.audioinput.getD 0 > 0,
    hasDNT := d.doNotTrack == some "1",
    hasCookies := d.cookieEnabled != some false,
    isFirefox := dev.parsed.browser == "Firefox",
    isSafari := dev.parsed.browser == "Safari",
    isBrave := isBrave,
    isChrome := dev.parsed.browser == "Chrome" && !isBrave,
    techScore := if inp.profile.techLiteracy.score = 0 then 50
                 else inp.profile.techLiteracy.score }

/-- Section 1: OPENING. -/
def sec1Opening : List Block := [mkBlock ["scanning."] .normal]

/-- Section 2: DEVICE DETECTION (fully conditional). -/
def sec2Device (env : JsEnv) (inp : MonologInput) (dv : Derived) : List Block :=
  let os := inp.profile.device.parsed.os
  let osv := inp.profile.device.parsed.osVersion
  if dv.isApple && dv.chip != "" then
    [mkBlock [os.toLower ++ " " ++ osv ++ ".", dv.chip.toLower ++ ".", "apple silicon."] .normal,
     mkBlock ["premium hardware."] .flash]
  else if dv.isApple && dv.chip == "" then
    [mkBlock [os.toLower ++ " " ++ osv ++ ".", "apple. intel era."] .normal,
     mkBlock ["aging hardware. still premium brand."] .flash]
  else if dv.isWindows && dv.nvidia != "" then
    [mkBlock ["windows " ++ osv ++ ".", dv.nvidia.toLower ++ "."] .normal] ++
    (if env.rtxBig dv.nvidia then
      [mkBlock ["gaming rig. or workstation.", "either way: disposable income."] .normal]
    else
      [mkBlock ["mid-range GPU.", "practical. budget-conscious."] .normal])
  else if dv.isWindows && dv.amd != "" then
    [mkBlock ["windows " ++ osv ++ ".", dv.amd.toLower ++ "."] .normal,
     mkBlock ["AMD build. value-oriented."] .flash]
  else if dv.isWindows then
    [mkBlock ["windows " ++ osv ++ "."] .normal] ++
    (if dv.hasHighMemory && dv.hasHighCores then
      [mkBlock ["powerful machine. workstation class."] .normal]
    else if !dv.hasHighMemory then
      [mkBlock ["standard hardware.", numOrQmark dv.d.deviceMemory ++ "GB RAM.",
                "consumer tier."] .normal]
    else [])
  else if dv.isLinux then
    [mkBlock ["linux."] .normal,
     mkBlock ["technical subject.", "privacy-conscious? or just stubborn."] .normal]
  else if dv.isChromeOS then
    [mkBlock ["chromebook."] .normal,
     mkBlock ["cloud-dependent. budget hardware.", "student? or minimalist."] .normal]
  else if os == "iOS" then
    [mkBlock ["iOS " ++ osv ++ ".", "apple ecosystem."] .normal,
     mkBlock ["high-value mobile target."] .flash]
  else if os == "Android" then
    (if dv.hasHighMemory then
      [mkBlock ["android. " ++ numOrQmark dv.d.deviceMemory ++ "GB RAM.",
                "flagship device."] .normal]
    else
      [mkBlock ["android. " ++ numOrQmark dv.d.deviceMemory ++ "GB RAM.",
                "budget device.", "emerging market?"] .normal])
  else
    [mkBlock [os.toLower ++ " " ++ osv ++ "."] .normal]

/-- Section 3: FORM FACTOR (only if deducible). -/
def sec3Form (dv : Derived) : List Block :=
  let maxTouch := dv.d.maxTouchPoints.getD 0
  if !dv.isMobile && dv.hasWebcam && dv.hasMic && maxTouch == 0 then
    (if dv.isApple then
      [mkBlock ["webcam. microphone. no touch.", "=laptop. probably macbook."] .normal]
    else
      [mkBlock ["webcam. microphone. no touch.", "=laptop."] .normal])
  else if !dv.isMobile && !dv.hasWebcam && dv.hasMic then
    [mkBlock ["no webcam. external mic.", "desktop workstation."] .normal]
  else if dv.isMobile then
    (if maxTouch > 3 then
      [mkBlock ["multi-touch. " ++ optNatStr dv.d.maxTouchPoints ++ " contact points.",
                "mobile device."] .normal]
    else
      [mkBlock ["mobile device."] .flash])
  else []

/-- Section 4: TECH LITERACY. -/
def sec4Tech (dv : Derived) : List Block :=
  let ts := dv.techScore
  if ts ≥ 80 then
    [mkBlock ["tech literacy: " ++ toString ts ++ "/100.", "expert level."] .normal,
     mkBlock ["knows shortcuts. skips tutorials.", "reads documentation. for fun."] .normal,
     mkBlock ["harder to monetize.", "resistant to clickbait."] .flash]
  else if ts ≥ 60 then
    [mkBlock ["tech literacy: " ++ toString ts ++ "/100.", "above average."] .normal,
     mkBlock ["will research before purchasing.", "serve comparison ads. reviews."] .normal]
  else if ts ≥ 40 then
    [mkBlock ["tech literacy: " ++ toString ts ++ "/100.", "average user."] .normal,
     mkBlock ["standard targeting effective."] .flash]
  else
    [mkBlock ["tech literacy: " ++ toString ts ++ "/100.", "below average."] .normal,
     mkBlock ["susceptible to urgency tactics.", "\x22limited time offer\x22 works here."] .normal]

/-- Section 5: BROWSER + TRACKING POSTURE. -/
def sec5Browser (inp : MonologInput) (dv : Derived) : List Block :=
  if dv.isBrave then
    [mkBlock ["brave browser.", "privacy-focused. actively hiding."] .normal,
     mkBlock ["still visible. still trackable.", "the fingerprint doesn\x27t lie."] .linger]
  else if dv.isFirefox then
    [mkBlock ["firefox.",
              if dv.hasDNT then "do-not-track: enabled." else "no do-not-track."] .normal] ++
    (if dv.hasDNT then
      [mkBlock ["irony: DNT makes the fingerprint more unique.",
                "trying to hide. standing out instead."] .normal]
    else [])
  else if dv.isSafari then
    [mkBlock ["safari.", "some built-in protections."] .normal,
     mkBlock ["apple\x27s privacy theater.",
              "enough to feel safe. not enough to be safe."] .normal]
  else if dv.isChrome then
    [mkBlock ["chrome " ++ inp.profile.device.parsed.browserVersion ++ ".",
              (if dv.hasCookies then "cookies: enabled." else "cookies: blocked."),
              (if dv.hasDNT then "do-not-track: on." else "no do-not-track.")] .normal] ++
    (if !dv.hasDNT && dv.hasCookies then
      [mkBlock ["default settings. no resistance."] .flash,
       mkBlock ["thinks incognito means invisible."] .flash]
    else [])
  else
    [mkBlock [inp.profile.device.parsed.browser.toLower ++ " " ++
              inp.profile.device.parsed.browserVersion ++ "."] .normal]

/-- Section 6: HARDWARE DETAILS. -/
def sec6Hardware (env : JsEnv) (dv : Derived) : List Block :=
  let hwLines :=
    (match dv.d.hardwareConcurrency with
     | some n => if n ≠ 0 then [toString n ++ " cores."] else []
     | none => []) ++
    (match dv.d.deviceMemory with
     | some n => if n ≠ 0 then [toString n ++ "GB RAM."] else []
     | none => [])
  (if hwLines ≠ [] then [mkBlock [String.intercalate " " hwLines] .normal] else []) ++
  (if dv.d.screenWidth.getD 0 ≠ 0 && dv.d.screenHeight.getD 0 ≠ 0 then
    [mkBlock [optNatStr dv.d.screenWidth ++ "×" ++ optNatStr dv.d.screenHeight ++
              " @" ++ env.numToStr (jsOrQ dv.d.devicePixelRatio 1) ++ "x."] .normal]
  else []) ++
  (if dv.hasWideColor && dv.hasRetina then
    [mkBlock [optNatStr dv.d.colorDepth ++ "-bit color. wide gamut. HDR.",
              "professional-grade display."] .normal,
     mkBlock ["content creator? photographer? designer?"] .flash]
  else if dv.hasRetina then
    [mkBlock ["retina display.",
              if dv.isPremium then "premium screen." else "consumer retina."] .flash]
  else if dv.d.colorDepth.getD 0 ≠ 0 then
    [mkBlock [optNatStr dv.d.colorDepth ++ "-bit. standard display."] .flash]
  else [])

/-- Section 7: BATTERY (only if data exists). -/
def sec7Battery (dv : Derived) : List Block :=
  match dv.battery.level with
  | none => []
  | some lv =>
    let pct : ℤ := round (lv * 100)
    if dv.battery.charging then
      [mkBlock ["battery: " ++ toString pct ++ "%. charging.", "plugged in. stationary."] .normal,
       mkBlock ["settled in. not going anywhere."] .flash]
    else if pct ≤ 20 then
      [mkBlock ["battery: " ++ toString pct ++ "%. not charging.",
                "running low. will leave soon."] .normal,
       mkBlock ["limited window. act fast."] .flash]
    else if pct ≤ 50 then
      [mkBlock ["battery: " ++ toString pct ++ "%. on battery.",
                "mobile. or forgot the charger."] .normal]
    else
      [mkBlock ["battery: " ++ toString pct ++ "%.", "session could be long."] .normal]

/-- Section 8: TIME OF DAY (only if determinable). -/
def sec8Time (env : JsEnv) (dv : Derived) : List Block :=
  match dv.localHour with
  | none => []
  | some h =>
    let m : ℕ := if dv.collectedAt ≠ "" then env.minutesOf dv.collectedAt else 0
    let timeStr := pad2 h ++ ":" ++ pad2 (m : ℤ)
    if 0 ≤ h ∧ h < 5 then
      [mkBlock [timeStr ++ " local time.", "deep night."] .normal,
       mkBlock ["impulse control lowest between midnight and 4am.", "increase bid."] .linger]
    else if h ≥ 22 ∨ h = 5 then
      [mkBlock [timeStr ++ " local time.", "late night."] .normal,
       mkBlock ["can\x27t sleep? or won\x27t sleep?",
                "late night purchases convert 40% better."] .linger]
    else if 6 ≤ h ∧ h < 9 then
      [mkBlock [timeStr ++ " local time.", "early session."] .normal,
       mkBlock ["routine browser. habitual.", "serve morning news. coffee ads."] .normal]
    else if 9 ≤ h ∧ h < 12 then
      [mkBlock [timeStr ++ " local time.", "morning. work hours."] .normal,
       mkBlock ["should be working. procrastinating.", "receptive to distractions."] .normal]
    else if 12 ≤ h ∧ h < 14 then
      [mkBlock [timeStr ++ " local time.", "lunch break."] .normal,
       mkBlock ["free time. browsing. shopping.", "food delivery ads? retail?"] .normal]
    else if 14 ≤ h ∧ h < 17 then
      [mkBlock [timeStr ++ " local time.", "afternoon slump."] .normal,
       mkBlock ["attention fading. easier to convert."] .flash]
    else if 17 ≤ h ∧ h < 20 then
      [mkBlock [timeStr ++ " local time.", "evening."] .normal,
       mkBlock ["decision fatigue setting in.", "emotional purchases peak now."] .normal]
    else
      [mkBlock [timeStr ++ " local time.", "late evening."] .normal,
       mkBlock ["winding down. guard lowered."] .flash]

/-- Section 9: LOCATION + LANGUAGE. -/
def sec9LocationLang (inp : MonologInput) (dv : Derived) : List Block :=
  let loc := inp.profile.location
  let langCode := ((dv.d.language.getD "").take 2).toLower
  let langInForeign := langCode == "en" &&
    !(["United States", "United Kingdom", "Canada", "Australia", "Ireland",
       "New Zealand"].contains loc.country)
  let nonEnglishInEnglish := langCode != "en" &&
    (["United States", "United Kingdom", "Canada", "Australia"].contains loc.country)
  [mkBlock [(jsOrS dv.d.timezone "unknown timezone").toLower ++ ".",
            loc.country.toLower ++ ".", loc.market.toLower ++ " market."] .normal] ++
  (if langInForeign then
    [mkBlock ["english speaker in " ++ loc.country.toLower ++ ".",
              "expatriate? remote worker? digital nomad?"] .normal,
     mkBlock ["probably misses home.", "show airline ads. relocation services."] .normal]
  else if nonEnglishInEnglish then
    [mkBlock [(dv.d.language.getD "").toLower ++ " speaker in " ++ loc.country.toLower ++ ".",
              "immigrant? international student?"] .normal,
     mkBlock ["target with community services.", "language learning ads."] .normal]
  else [])

/-- Section 10: FONT FORENSICS. -/
def sec10Fonts (dv : Derived) : List Block :=
  if dv.devFonts ≠ [] ∧ dv.designFonts ≠ [] then
    [mkBlock ["developer fonts: " ++ (String.intercalate ", " (dv.devFonts.take 2)).toLower ++ ".",
              "design fonts: " ++ (String.intercalate ", " (dv.designFonts.take 2)).toLower ++ "."] .normal,
     mkBlock ["builds things AND makes them pretty.", "rare combination. high value."] .normal]
  else if dv.devFonts ≠ [] then
    [mkBlock ["developer fonts detected.",
              (String.intercalate ", " (dv.devFonts.take 3)).toLower ++ "."] .normal,
     mkBlock ["writes code."] .flash]
  else if dv.designFonts ≠ [] then
    [mkBlock ["design fonts detected.",
              (String.intercalate ", " (dv.designFonts.take 3)).toLower ++ "."] .normal,
     mkBlock ["visual professional."] .flash]
  else if dv.adobeFonts ≠ [] then
    [mkBlock ["adobe creative suite fonts.", "creative professional."] .normal]
  else if dv.fonts.length > 20 then
    [mkBlock [toString dv.fonts.length ++ " fonts installed.",
              "above average. creative field?"] .normal]
  else []

/-- Section 11: PROFESSION. -/
def sec11Profession (inp : MonologInput) : List Block :=
  let allProf := inp.profile.profession.all
  if allProf ≠ [] then
    [mkBlock ((allProf.take 3).map fun p =>
        p.label.toLower ++ ". (" ++ toString (round (p.confidence * 100)) ++ "%)") .normal]
  else []

/-- Section 12: INCOME. -/
def sec12Income (inp : MonologInput) : List Block :=
  let inc := inp.profile.income
  if inc.bracket == "High" || inc.bracket == "Upper-Middle" then
    [mkBlock [inc.bracket.toLower ++ " income.", "est. " ++ inc.estimate.toLower ++ "."] .normal,
     mkBlock ["premium ad inventory.", "luxury brands. SaaS. investment products."] .normal,
     mkBlock ["could afford to say no.", "", "doesn\x27t."] .linger]
  else if inc.bracket == "Middle" then
    [mkBlock ["middle income.", "est. " ++ inc.estimate.toLower ++ "."] .normal,
     mkBlock ["volume target.", "discount codes. subscription trials. loyalty programs."] .normal]
  else
    [mkBlock ["lower income bracket.", "est. " ++ inc.estimate.toLower ++ "."] .normal,
     mkBlock ["cost-sensitive.", "payday loan ads. buy-now-pay-later.",
              "predatory? effective."] .normal]

/-- Section 13: CONNECTION (if available). -/
def sec13Connection (env : JsEnv) (dv : Derived) : List Block :=
  let ct := dv.d.connectionType.getD ""
  if ct ≠ "" then
    if ct == "4g" && dv.d.connectionDownlink.getD 0 > 5 then
      [mkBlock ["fast connection. " ++
                (match dv.d.connectionDownlink with
                 | some q => env.numToStr q
                 | none => "undefined") ++ " mbps.",
                "serve rich media. video ads. interactive."] .normal]
    else if ct == "4g" then
      [mkBlock [ct ++ ". " ++
                (match dv.d.connectionDownlink with
                 | some q => if q = 0 then "?" else env.numToStr q
                 | none => "?") ++ " mbps."] .flash]
    else if ct == "3g" || ct == "2g" then
      [mkBlock ["slow connection. " ++ ct ++ ".", "text-only ads. lightweight creatives."] .normal] ++
      (if dv.d.connectionSaveData.getD false then
        [mkBlock ["data saver enabled. cost-conscious."] .flash]
      else [])
    else []
  else []

/-- Section 14: COOKIE SURVEILLANCE (only with extension data). -/
def sec14Cookies (inp : MonologInput) : List Block :=
  match inp.fp.extensionCookies with
  | none => []
  | some ck =>
    if ck.total > 0 then
      [mkBlock [toString ck.total ++ " cookies found.",
                toString ck.trackerCount ++ " belong to known trackers.",
                toString (round (jsOrQ ck.trackerPercentage
                  ((ck.trackerCount : ℚ) / (ck.total : ℚ) * 100))) ++ "% surveillance."] .normal,
       mkBlock ["subject agreed to this.", "somewhere in a terms of service.",
                "subject didn\x27t read it."] .linger] ++
      (let bycat := ck.byCategory.getD ⟨0, 0, 0⟩
       if bycat.advertising > 0 ∨ bycat.social > 0 ∨ bycat.data_brokers > 0 then
         [mkBlock ((if bycat.advertising > 0 then [toString bycat.advertising ++ " advertising."] else []) ++
                   (if bycat.social > 0 then [toString bycat.social ++ " social media."] else []) ++
                   (if bycat.data_brokers > 0 then [toString bycat.data_brokers ++ " data brokers."] else [])) .normal]
       else []) ++
      (let topT := ck.topTrackers.take 5
       if topT ≠ [] then
         [mkBlock (topT.map fun t => t.domain ++ ": " ++ toString t.count ++ ".") .normal]
       else []) ++
      (let zombies := ck.lifetimesZombie.getD 0
       if zombies > 0 then
         [mkBlock [toString zombies ++ " zombie cookies.", "survive clearing. regenerate."] .normal,
          mkBlock ["deleted cookies last week?", "", "they came back."] .linger]
       else []) ++
      (let socialTrackers := ck.topTrackers.filter (fun t => t.category == "social")
       if socialTrackers.length ≥ 2 then
         [mkBlock [(String.intercalate ". "
                     (socialTrackers.map fun t => replaceFirst t.domain ".com" "")) ++ ".",
                   "tracking outside their platforms.",
                   "the social graph is the product."] .normal]
       else []) ++
      (let brokers := ck.topTrackers.filter (fun t => t.category == "data_brokers")
       if brokers ≠ [] then
         [mkBlock [(String.intercalate ". " (brokers.map (·.domain))) ++ ".",
                   "device graph company.", "phone. laptop. tablet. all linked."] .linger]
       else [])
    else []

/-- Section 15: ENTROPY + UNIQUENESS. -/
def sec15Entropy (env : JsEnv) (inp : MonologInput) : List Block :=
  let bits := inp.entropy.totalBits
  let u := inp.uniqueness
  (if bits > 50 then
    [mkBlock [toFixed1 bits ++ " bits of entropy.", "extremely unique."] .normal,
     mkBlock ["identifiable among " ++ u.populationSize ++ ".",
              env.numToStr u.percent ++ "%."] .normal]
  else if bits > 30 then
    [mkBlock [toFixed1 bits ++ " bits of entropy.", "highly unique."] .normal,
     mkBlock [env.numToStr u.percent ++ "% identifiable."] .flash]
  else if bits > 15 then
    [mkBlock [toFixed1 bits ++ " bits.", "moderately unique.",
              "combined with other signals: identifiable."] .normal]
  else
    [mkBlock [toFixed1 bits ++ " bits.", "common profile.",
              "harder to single out. but not impossible."] .normal]) ++
  [mkBlock ["canvas: unique.", "audio: unique.", "GPU: unique.",
            "every signal confirms: one subject."] .normal,
   mkBlock ["needle in a haystack?", "", "subject IS the needle."] .linger]

/-- Section 16: VALUATION. -/
def sec16Valuation (inp : MonologInput) : List Block :=
  let p := inp.pricing
  [mkBlock ["$" ++ toFixed2 p.cpm ++ " CPM.", "$" ++ toFixed0 p.annualValue ++ "/year."] .normal,
   mkBlock ["less than a coffee.", "but thousands of times a day."] .normal] ++
  (if p.factors ≠ [] then
    [mkBlock ((p.factors.take 4).map fun f =>
        f.label.toLower ++ ": " ++ f.effect.toLower ++ ".") .normal]
  else [])

/-- Section 17: IDENTIFICATION. -/
def sec17Identification (inp : MonologInput) : List Block :=
  let vid := jsOrS inp.fp.advVisitorId (jsOrS inp.fp.advVisitorId
               (jsOrS inp.fp.advComponentsVisitorId "00000000"))
  [mkBlock ["subject fully profiled."] .flash,
   mkBlock ["we gave it a name.", "it didn\x27t choose it."] .normal,
   mkBlock ["visitor ID:", vid] .normal,
   mkBlock ["collected in seconds.", "no permission required."] .normal]

/-- Section 18: ENDING. -/
def sec18Ending : List Block :=
  [mkBlock ["classification:", "advertising commodity."] .linger,
   mkBlock ["filed. indexed. sold.", "again and again and again."] .linger,
   mkBlock ["you can close this tab.", "", "we already have what we need."] .linger,
   mkBlock ["you are the product."] .linger]

/-- Model of `buildMonolog(fpData, profile, entropy, uniqueness, pricing)`. -/
def buildMonolog (env : JsEnv) (inp : MonologInput) : List Block :=
  let dv := derive env inp
  sec1Opening ++ sec2Device env inp dv ++ sec3Form dv ++ sec4Tech dv ++
  sec5Browser inp dv ++ sec6Hardware env dv ++ sec7Battery dv ++
  sec8Time env dv ++ sec9LocationLang inp dv ++ sec10Fonts dv ++
  sec11Profession inp ++ sec12Income inp ++ sec13Connection env dv ++
  sec14Cookies inp ++ sec15Entropy env inp ++ sec16Valuation inp ++
  sec17Identification inp ++ sec18Ending

/-! ## Hold assignment and the full v4 schedule -/

/-- The hold-assignment loop:
`for i: blocks[i].holdSec = scaredTiming(i, blocks.length, lines.length, importance)`. -/
def assignHoldsAux (total : ℕ) : List Block → ℕ → ℕ → List (Block × ℚ) × ℕ
  | [], _, s => ([], s)
  | b :: bs, i, s =>
    let (h, s') := scaredTiming i total b.lines.length b.importance s
    let (rest, s'') := assignHoldsAux total bs (i + 1) s'
    ((b, h) :: rest, s'')

def assignHolds (blocks : List Block) (s : ℕ) : List (Block × ℚ) :=
  (assignHoldsAux blocks.length blocks 0 s).1

/-- Composition: `buildMonolog` followed by `srand(seed-of-visitorId)` and the scared-timing
assignment: the full deterministic v4 schedule. -/
def scheduleV4 (env : JsEnv) (inp : MonologInput) : List (Block × ℚ) :=
  let blocks := buildMonolog env inp
  let vid := inp.fp.advVisitorId.getD ""
  assignHolds blocks (seedOfVid vid)

/-- The v4 block timings derived from the schedule. -/
def timingsV4 (env : JsEnv) (inp : MonologInput) : List BlockTiming × ℤ :=
  mkTimings v4Consts ((scheduleV4 env inp).map fun bh => (bh.1.lines.length, bh.2)) 0

/-! ## Frame-production loop with backpressure (render-cli-v2 `main`)

`const canWrite = ffmpeg.stdin.write(buf);`
`if (!canWrite) await new Promise(resolve => ffmpeg.stdin.once('drain', resolve));`

The encoder input channel is abstract: `write` consumes a frame index and
reports whether more data can be accepted; `drain` is the event the loop
awaits when it cannot.
-/

structure EncChannel (σ : Type) where
  write : σ → ℕ → σ × Bool
  drain : σ → σ

/-- The loop body from frame `gf`, for `k` remaining frames, recording the
submitted frame indices in order. -/
def frameLoopAux (ch : EncChannel σ) : ℕ → ℕ → σ → List ℕ × σ
  | _, 0, s => ([], s)
  | gf, k + 1, s =>
    let (s', canWrite) := ch.write s gf
    let s'' := if canWrite then s' else ch.drain s'
    let (rest, sf) := frameLoopAux ch (gf + 1) k s''
    (gf :: rest, sf)

/-- The loop `for (let gf = 0; gf < totalFrames; gf++)` submitting frame gf each pass. -/
def frameLoop (ch : EncChannel σ) (totalFrames : ℕ) (s : σ) : List ℕ × σ :=
  frameLoopAux ch 0 totalFrames s

/-- A channel that accepts a write only every other call (state = parity). -/
def alternatingChannel : EncChannel Bool :=
  { write := fun s _ => (!s, s), drain := fun s => s }

/-! ## Filesystem-effect model for the encode and audio stages -/

/-- Abstract file contents: what matters is whether the bytes at a path are
the silent video, the sonified wav, the merged (re-encoded) video, or the
incomplete output of a killed/failed external process. -/
inductive Content
  | silentVideo
  | audioWav
  | muxedVideo
  | incompleteData
deriving DecidableEq, Repr

/-- A flat filesystem: association list path ↦ content. -/
def FS := List (String × Content)

def FS.get (fs : FS) (p : String) : Option Content :=
  (List.find? (fun e => e.1 == p) fs).map (·.2)

def FS.set (fs : FS) (p : String) (c : Content) : FS :=
  (p, c) :: List.filter (fun e => e.1 != p) fs

def FS.remove (fs : FS) (p : String) : FS :=
  List.filter (fun e => e.1 != p) fs

/-- JS `fs.renameSync(src, dst)`: move the bytes at `src` to `dst`. -/
def FS.rename (fs : FS) (src dst : String) : FS :=
  match fs.get src with
  | some c => (FS.remove fs src).set dst c
  | none => fs

/-- The silent-video path `outputPath.replace(/\.mp4$/, '_silent.mp4')`. -/
def silentPathOf (outputPath : String) : String :=
  if (".mp4".toList).isSuffixOf outputPath.toList then
    String.mk (outputPath.toList.take (outputPath.toList.length - 4)) ++ "_silent.mp4"
  else outputPath

/-- Last `n` characters of a string (JS `s.slice(-n)` for `s` of any length). -/
def lastChars (n : ℕ) (s : String) : String :=
  String.mk (s.toList.drop (s.toList.length - n))

/-- The v1 renderer's encode run: ffmpeg is spawned writing **directly to
`outputPath`**; on a non-zero exit the promise rejects with
``ffmpeg exited with code ${code}\n${ffmpegErr.slice(-500)}`` and whatever
ffmpeg had already written stays in place. -/
def encodeRunV1 (outputPath : String) (exitCode : ℤ) (stderr : String) (fs : FS) :
    Except String Unit × FS :=
  let fs1 := fs.set outputPath .incompleteData
  if exitCode = 0 then (.ok (), fs1.set outputPath .silentVideo)
  else
    (.error ("ffmpeg exited with code " ++ toString exitCode ++ "\n" ++ lastChars 500 stderr),
     fs1)

/-- The v2 renderer's encode run: ffmpeg writes to the separate
`_silent.mp4` path; the intended `outputPath` is untouched by this stage. -/
def encodeRunV2 (outputPath : String) (exitCode : ℤ) (stderr : String) (fs : FS) :
    Except String Unit × FS :=
  let sp := silentPathOf outputPath
  let fs1 := fs.set sp .incompleteData
  if exitCode = 0 then (.ok (), fs1.set sp .silentVideo)
  else
    (.error ("ffmpeg exited with code " ++ toString exitCode ++ "\n" ++ lastChars 500 stderr),
     fs1)

/-- Outcome of the sonification step: the `execSync` call may throw
(timeout, missing tool), and when it succeeds the wav search may or may not
find a file. -/
inductive SonifyOutcome
  | threw (msg : String)
  | ranButNoWav
  | wavAt (path : String)
deriving DecidableEq, Repr

/-- The v2 sonification/merge stage (`try { ... } catch { rename }`):

* sonify throws → caught, fall back: rename silent → output if it exists;
* no wav found → warning, `fs.renameSync(silentPath, outputPath)`;
* wav found: merge via ffmpeg; on success the merged file is at `outputPath`
  and the silent file is unlinked; if the merge `execSync` throws the catch
  block renames the (still present) silent file over the output path.

Returns `(render still succeeds, final filesystem)`. -/
def audioStageV2 (outputPath : String) (sonify : SonifyOutcome)
    (muxFails : Bool) (fs : FS) : Bool × FS :=
  let sp := silentPathOf outputPath
  match sonify with
  | .threw _ => (true, if (fs.get sp).isSome then fs.rename sp outputPath else fs)
  | .ranButNoWav => (true, fs.rename sp outputPath)
  | .wavAt wp =>
    let fs1 := fs.set wp .audioWav
    if muxFails then
      let fs2 := fs1.set outputPath .incompleteData
      (true, if (fs2.get sp).isSome then fs2.rename sp outputPath else fs2)
    else
      (true, (fs1.set outputPath .muxedVideo).remove sp)

/-- The v4 merge stage: `try { execSync(merge); unlink(silent) } catch
{ if silent exists rename(silent, output) }`. -/
def audioStageV4 (outputPath : String) (muxFails : Bool) (fs : FS) : Bool × FS :=
  let sp := silentPathOf outputPath
  if muxFails then
    let fs1 := fs.set outputPath .incompleteData
    (true, if (fs1.get sp).isSome then fs1.rename sp outputPath else fs1)
  else
    (true, (fs.set outputPath .muxedVideo).remove sp)

/-! ## `CookieAnalyzer.analyze` (extension/js/cookies.js)

`getTrackerCategory` lives in the extension's `trackers.js`, which is not in
the sources; it is taken as a parameter, so every theorem holds for every
categorizer.  `Date.now()` is the explicit `now` parameter.
-/

inductive TrackerCat
  | advertising
  | analytics
  | social
  | data_brokers
  | fingerprinting
  | consent_management
deriving DecidableEq, Repr

structure JsCookie where
  domain : String
  session : Bool
  expirationDate : Option ℚ
deriving DecidableEq, Repr

structure CatTable where
  advertising : ℕ
  analytics : ℕ
  social : ℕ
  data_brokers : ℕ
  fingerprinting : ℕ
  consent_management : ℕ
  unknown : ℕ
deriving DecidableEq, Repr

def CatTable.bump (t : CatTable) : TrackerCat → CatTable
  | .advertising => { t with advertising := t.advertising + 1 }
  | .analytics => { t with analytics := t.analytics + 1 }
  | .social => { t with social := t.social + 1 }
  | .data_brokers => { t with data_brokers := t.data_brokers + 1 }
  | .fingerprinting => { t with fingerprinting := t.fingerprinting + 1 }
  | .consent_management => { t with consent_management := t.consent_management + 1 }

structure LifetimeCounts where
  session : ℕ
  shortLived : ℕ
  persistent : ℕ
  zombie : ℕ
deriving DecidableEq, Repr

/-- JS `cookie.domain.replace(/^\./, '')`: strip one leading dot. -/
def stripDot (s : String) : String :=
  if s.startsWith "." then s.drop 1 else s

/-- Loop accumulator of `analyze`'s main `for` loop. -/
structure CkAccum where
  trackerCookies : List (JsCookie × TrackerCat)
  firstParty : List JsCookie
  thirdParty : List JsCookie
  byDomainKeys : List String
  byCategory : CatTable
  lifetimes : LifetimeCounts
deriving Repr

def ckInit : CkAccum := ⟨[], [], [], [], ⟨0, 0, 0, 0, 0, 0, 0⟩, ⟨0, 0, 0, 0⟩⟩

/-- Domain bookkeeping and tracker classification part of the loop body. -/
def ckClassify (cat : String → Option TrackerCat) (acc : CkAccum)
    (cookie : JsCookie) : CkAccum :=
  let domain := stripDot cookie.domain
  let keys :=
    if acc.byDomainKeys.contains domain then acc.byDomainKeys
    else acc.byDomainKeys ++ [domain]
  match cat domain with
  | some c =>
    { acc with
      trackerCookies := acc.trackerCookies ++ [(cookie, c)],
      byCategory := acc.byCategory.bump c,
      thirdParty := acc.thirdParty ++ [cookie],
      byDomainKeys := keys }
  | none =>
    { acc with
      byCategory := { acc.byCategory with unknown := acc.byCategory.unknown + 1 },
      firstParty := acc.firstParty ++ [cookie],
      byDomainKeys := keys }

/-- Lifetime analysis part of the loop body. -/
def ckLifetime (now : ℚ) (cookie : JsCookie) (acc1 : CkAccum) : CkAccum :=
  if cookie.session then
    { acc1 with lifetimes := { acc1.lifetimes with session := acc1.lifetimes.session + 1 } }
  else
    match cookie.expirationDate with
    | some exp =>
      let daysUntilExpiry := (exp - now) / 86400
      if daysUntilExpiry < 1 then
        { acc1 with lifetimes := { acc1.lifetimes with shortLived := acc1.lifetimes.shortLived + 1 } }
      else if daysUntilExpiry > 365 then
        { acc1 with lifetimes := { acc1.lifetimes with zombie := acc1.lifetimes.zombie + 1 } }
      else
        { acc1 with lifetimes := { acc1.lifetimes with persistent := acc1.lifetimes.persistent + 1 } }
    | none => acc1

/-- One iteration of the cookie loop. -/
def ckStep (cat : String → Option TrackerCat) (now : ℚ) (acc : CkAccum)
    (cookie : JsCookie) : CkAccum :=
  ckLifetime now cookie (ckClassify cat acc cookie)

structure TrackerEntry where
  domain : String
  count : ℕ
  category : TrackerCat
deriving DecidableEq, Repr

/-- The `trackerDomains` aggregation: first-occurrence insertion order, the
category of the first cookie seen for a domain, per-domain counts. -/
def aggregateTrackers (tcs : List (JsCookie × TrackerCat)) : List TrackerEntry :=
  tcs.foldl
    (fun entries tc =>
      let d := stripDot tc.1.domain
      if entries.any (fun e => e.domain == d) then
        entries.map fun e => if e.domain == d then { e with count := e.count + 1 } else e
      else entries ++ [⟨d, 1, tc.2⟩])
    []

/-- Model of `generateCookieSummary(total, trackerCount, lifetimes, byCategory)`. -/
def generateCookieSummary (total trackerCount : ℕ) (lifetimes : LifetimeCounts)
    (byCategory : CatTable) : List String :=
  [toString total ++ " cookies found across your browser.",
   toString trackerCount ++ " (" ++
     toString (if total > 0 then round ((trackerCount : ℚ) / (total : ℚ) * 100) else 0) ++
     "%) belong to known tracking companies."] ++
  (if byCategory.advertising > 0 then
    [toString byCategory.advertising ++ " advertising cookies are following you across websites."]
  else []) ++
  (if byCategory.analytics > 0 then
    [toString byCategory.analytics ++ " analytics cookies are recording your behavior."]
  else []) ++
  (if byCategory.social > 0 then
    [toString byCategory.social ++ " social media cookies track you even outside those platforms."]
  else []) ++
  (if byCategory.data_brokers > 0 then
    [toString byCategory.data_brokers ++ " data broker cookies are building a profile to sell."]
  else []) ++
  (if lifetimes.zombie > 0 then
    [toString lifetimes.zombie ++ " \x22zombie\x22 cookies expire more than a year from now."]
  else [])

structure CookieAnalysis where
  total : ℕ
  trackerCount : ℕ
  firstPartyCount : ℕ
  thirdPartyCount : ℕ
  uniqueDomains : ℕ
  byCategory : CatTable
  lifetimes : LifetimeCounts
  topTrackers : List TrackerEntry
  trackerPercentage : ℤ
  summary : List String
deriving DecidableEq, Repr

/-- Model of `CookieAnalyzer.analyze(cookies)`. -/
def analyze (cat : String → Option TrackerCat) (now : ℚ)
    (cookies : List JsCookie) : CookieAnalysis :=
  let total := cookies.length
  let acc := cookies.foldl (ckStep cat now) ckInit
  let topTrackers :=
    ((aggregateTrackers acc.trackerCookies).mergeSort
      (fun a b => b.count ≤ a.count)).take 20
  { total := total,
    trackerCount := acc.trackerCookies.length,
    firstPartyCount := acc.firstParty.length,
    thirdPartyCount := acc.thirdParty.length,
    uniqueDomains := acc.byDomainKeys.length,
    byCategory := acc.byCategory,
    lifetimes := acc.lifetimes,
    topTrackers := topTrackers,
    trackerPercentage :=
      if total > 0 then round ((acc.trackerCookies.length : ℚ) / (total : ℚ) * 100) else 0,
    summary := generateCookieSummary total acc.trackerCookies.length acc.lifetimes acc.byCategory }

/-! ## Spec-side formulas and concrete inputs used by the theorems below -/

/-- The hold-duration formula exactly as the claim states it (curve,
importance multiplier and jitter spelled out, **without** the source's
`Math.max(0.25, ·)` floor), evaluated at the rng draw `r`. -/
def scaredClaimed (index total lineCount : ℕ) (imp : Importance) (r : ℚ) : ℚ :=
  let progress : ℚ := (index : ℚ) / (total : ℚ)
  let curve : ℚ :=
    if progress < 0.15 then 1.3
    else if progress < 0.5 then 0.75
    else if progress < 0.75 then 0.6
    else 1.1 + (progress - 0.75) * 4
  let impMult : ℚ :=
    match imp with
    | .flash => 0.35
    | .linger => 2.2
    | .normal => 1.0
  let jitter : ℚ := 0.75 + r * 0.5
  (0.3 + 0.22 * (lineCount : ℚ)) * curve * impMult * jitter

/-- The claim's formula amended with the floor the source applies:
`Math.max(0.25, base * curve * impMult * jitter)`. -/
def scaredAmended (index total lineCount : ℕ) (imp : Importance) (r : ℚ) : ℚ :=
  max 0.25 (scaredClaimed index total lineCount imp r)

/-- Sum of the per-block frame durations of a block list. -/
def sumDurs (tc : TimingConsts) (bs : List (ℕ × ℚ)) : ℤ :=
  (bs.map (blockDur tc)).sum

/-- A concrete platform environment (all primitives trivial). -/
def env0 : JsEnv :=
  ⟨fun _ => "", fun _ => "", fun _ => "", fun _ => false, fun _ => 0,
   fun _ => 0, fun _ => ""⟩

def profile0 : Profile :=
  { device := { parsed := { browser := "Chrome", browserVersion := "120",
                            os := "macOS", osVersion := "14.2", mobile := false },
                deviceTier := "Premium", deviceGuess := "MacBook Pro" },
    location := { country := "Czechia", market := "Tier 2" },
    income := { bracket := "High", estimate := "$60k+" },
    techLiteracy := { score := 85 },
    profession := { primary := "Developer", all := [⟨"developer", 0.8⟩] } }

def cookieData0 : CookieData :=
  { total := 40, trackerCount := 12, trackerPercentage := some 30,
    byCategory := some ⟨18, 6, 2⟩,
    topTrackers := [⟨"doubleclick.net", 9, "advertising"⟩],
    lifetimesZombie := some 3 }

def basic0 : BasicData :=
  { emptyBasic with timezone := some "Europe/Prague",
                    deviceMemory := some 16, hardwareConcurrency := some 10 }

def fp0 : FpData :=
  { basic := some basic0,
    advRendererUnmasked := some "Apple M2 Pro",
    advFontsComp := none,
    advVisitorId := some "ab12cd34",
    advComponentsVisitorId := none,
    webglRenderer := none,
    fonts := some ["Menlo", "Futura"],
    battery := some ⟨some 0.8, true⟩,
    mediaDevices := some ⟨some 1, some 1⟩,
    extensionCookies := some cookieData0,
    collectedAt := some "2024-01-01T12:00:00Z",
    generatedAt := none }

def inp0 : MonologInput :=
  { fp := fp0, profile := profile0,
    entropy := ⟨34.2, [⟨"canvas", 8.1, true⟩, ⟨"fonts", 6.3, true⟩]⟩,
    uniqueness := ⟨99.99, "21.9 billion"⟩,
    pricing := ⟨5.2, 156, [⟨"Geographic Market", "Czechia (Tier 2)", "Base: $3.25"⟩]⟩ }

/-- A two-node, one-particle world used to witness the update invariant. -/
def node1 : Node := ⟨1, 2, 3, 4, "canvas", 5, 6, 7, false⟩

def p0 : Particle := ⟨5, 5, 1, 1, 1, 0⟩

def world0 : World :=
  { nodes := [default, node1],
    connections := [⟨0, 1, 10⟩],
    particles := [p0],
    rings := [⟨140, 0.5, 0.003⟩] }

/-- Concrete block list for the timeline witnesses. -/
def blocks0 : List (ℕ × ℚ) := [(0, 1), (3, 2)]

/-- Concrete filesystem holding a finished silent video. -/
def fsSilent : FS := [("render_silent.mp4", Content.silentVideo)]

/-! # Theorems -/

/-- C4 (amended): for `1 ≤ total`, `scaredTiming` returns the claim's
front-loaded/relaxed/accelerating curve formula scaled by content length,
importance multiplier and seeded jitter, **clamped below at 0.25 s**. -/
theorem c4_holds_formula (index total lineCount : ℕ) (imp : Importance) (s : ℕ)
    (h : 1 ≤ total) :
    (scaredTiming index total lineCount imp s).1 =
      scaredAmended index total lineCount imp (rng s).1 := by
  have hmax : max total 1 = total := Nat.max_eq_left h
  cases imp <;>
    · simp only [scaredTiming, scaredAmended, scaredClaimed, hmax, rng]
      congr 1
      ring_nf

/-- C4 witness: the amended formula evaluated at a concrete block. -/
theorem c4_witness :
    1 ≤ 6 ∧ (scaredTiming 3 6 1 Importance.normal 1).1 =
      scaredAmended 3 6 1 Importance.normal (rng 1).1 :=
  ⟨by decide, c4_holds_formula 3 6 1 Importance.normal 1 (by decide)⟩

/-- C4 counterexample: at block 3 of 6 (`curve = 0.6`) with zero lines and a
`flash` tag, the product `base·curve·impMult·jitter` is far below 0.25, so the
source's `Math.max(0.25, ·)` floor makes the returned hold differ from the
claim's bare formula. -/
theorem c4_counterexample :
    (scaredTiming 3 6 0 Importance.flash 1).1 ≠
      scaredClaimed 3 6 0 Importance.flash (rng 1).1 := by
  have h6 : (max (6 : ℕ) 1) = 6 := by decide
  have h1 : (scaredTiming 3 6 0 Importance.flash 1).1 = 0.25 := by
    simp only [scaredTiming, rng, rngStep, h6]
    norm_num
  have h2 : scaredClaimed 3 6 0 Importance.flash (rng 1).1 ≤ 0.2 := by
    simp only [scaredClaimed, rng, rngStep]
    norm_num
  intro heq
  rw [heq] at h1
  rw [h1] at h2
  norm_num at h2

/-- C3: every timing record produced by the `blockTimings` loop has duration
`lines*LINE_GAP + LINE_FADE + round(hold*FPS) + FADE_OUT + BLOCK_BLACK`, and a
zero-line block with a nonnegative hold still occupies at least
`LINE_FADE + FADE_OUT + BLOCK_BLACK` frames. -/
theorem c3_block_duration (tc : TimingConsts) (bs : List (ℕ × ℚ)) (acc : ℤ)
    (i : ℕ) (bt : BlockTiming) (b : ℕ × ℚ)
    (hbt : (mkTimings tc bs acc).1[i]? = some bt) (hb : bs[i]? = some b) :
    bt.duration = (b.1 : ℤ) * tc.lineGap + tc.lineFade + jsRound (b.2 * 30) +
      tc.fadeOut + tc.blockBlack ∧
    (b.1 = 0 → 0 ≤ b.2 →
      tc.lineFade + tc.fadeOut + tc.blockBlack ≤ bt.duration) := by
  induction bs generalizing acc i with
  | nil => simp [mkTimings] at hbt
  | cons hd rest ih =>
    match i with
    | 0 =>
      simp only [List.getElem?_cons_zero, Option.some.injEq] at hb
      simp only [mkTimings, List.getElem?_cons_zero, Option.some.injEq] at hbt
      subst hbt
      rw [← hb]
      refine ⟨rfl, ?_⟩
      intro hn hh
      have h30 : (0 : ℚ) ≤ hd.2 * 30 := mul_nonneg hh (by norm_num)
      have hr : 0 ≤ jsRound (hd.2 * 30) := by
        unfold jsRound
        rw [round_eq]
        exact Int.floor_nonneg.2 (by linarith)
      simp only [hn]
      push_cast
      omega
    | j + 1 =>
      simp only [List.getElem?_cons_succ] at hb
      simp only [mkTimings, List.getElem?_cons_succ] at hbt
      exact ih _ j hbt hb

/-- C3 witness: the duration formula and the zero-line lower bound at a
concrete block list (first block of `blocks0` has zero lines, hold 1 s). -/
theorem c3_witness :
    (⟨0, 60, 8, 30⟩ : BlockTiming).duration =
      ((0 : ℕ) : ℤ) * v2Consts.lineGap + v2Consts.lineFade + jsRound ((1 : ℚ) * 30) +
        v2Consts.fadeOut + v2Consts.blockBlack ∧
    v2Consts.lineFade + v2Consts.fadeOut + v2Consts.blockBlack ≤
      (⟨0, 60, 8, 30⟩ : BlockTiming).duration :=
  have h := c3_block_duration v2Consts blocks0 0 0 ⟨0, 60, 8, 30⟩ (0, 1)
    (by norm_num [mkTimings, blocks0, jsRound, v2Consts]) (by norm_num [blocks0])
  ⟨h.1, h.2 rfl (by norm_num)⟩

/-- Trace of the frame loop from `gf` for `k` frames. -/
theorem frameLoopAux_trace (ch : EncChannel σ) :
    ∀ (k gf : ℕ) (s : σ), (frameLoopAux ch gf k s).1 = List.range' gf k := by
  intro k
  induction k with
  | zero => intro gf s; rfl
  | succ n ih => intro gf s; simp [frameLoopAux, List.range', ih]

/-- C6: for every totalFrames and every encoder input channel — including one
that accepts a write only every other call — the frame loop submits exactly
the frames `0, 1, …, totalFrames-1`, in order, none skipped or duplicated;
after a write reporting a full buffer it applies the channel's drain before
the next write. -/
theorem c6_backpressure_order (σ : Type) (ch : EncChannel σ) (n : ℕ) (s : σ) :
    (frameLoop ch n s).1 = List.range n := by
  unfold frameLoop
  rw [frameLoopAux_trace, List.range_eq_range']

/-! ### Timeline lemmas (C2) -/

theorem mkTimings_cons (tc : TimingConsts) (b : ℕ × ℚ) (rest : List (ℕ × ℚ)) (acc : ℤ) :
    mkTimings tc (b :: rest) acc =
      (⟨acc, blockDur tc b, (b.1 : ℤ) * tc.lineGap + tc.lineFade, jsRound (b.2 * 30)⟩ ::
         (mkTimings tc rest (acc + blockDur tc b)).1,
       (mkTimings tc rest (acc + blockDur tc b)).2) := by
  simp [mkTimings, blockDur]

theorem sumDurs_cons (tc : TimingConsts) (b : ℕ × ℚ) (rest : List (ℕ × ℚ)) :
    sumDurs tc (b :: rest) = blockDur tc b + sumDurs tc rest := by
  simp [sumDurs]

theorem mkTimings_snd (tc : TimingConsts) :
    ∀ (bs : List (ℕ × ℚ)) (acc : ℤ), (mkTimings tc bs acc).2 = acc + sumDurs tc bs := by
  intro bs
  induction bs with
  | nil => intro acc; simp [mkTimings, sumDurs]
  | cons b rest ih =>
    intro acc
    rw [mkTimings_cons, sumDurs_cons]
    simp only [ih]
    ring

theorem sumDurs_nonneg (tc : TimingConsts) (bs : List (ℕ × ℚ))
    (hd : ∀ b ∈ bs, 0 < blockDur tc b) : 0 ≤ sumDurs tc bs := by
  induction bs with
  | nil => simp [sumDurs]
  | cons b rest ih =>
    rw [sumDurs_cons]
    have h1 := hd b (by simp)
    have h2 : 0 ≤ sumDurs tc rest := ih fun x hx => hd x (by simp [hx])
    omega

theorem activeCount_before (tc : TimingConsts) :
    ∀ (bs : List (ℕ × ℚ)) (acc f : ℤ), (∀ b ∈ bs, 0 < blockDur tc b) →
      f < acc → activeCount (mkTimings tc bs acc).1 f = 0 := by
  intro bs
  induction bs with
  | nil => intro acc f _ _; simp [mkTimings, activeCount]
  | cons b rest ih =>
    intro acc f hd hf
    have hb := hd b (by simp)
    rw [mkTimings_cons]
    simp only [activeCount, List.countP_cons]
    have hhead : inBlock f ⟨acc, blockDur tc b, (b.1 : ℤ) * tc.lineGap + tc.lineFade,
        jsRound (b.2 * 30)⟩ = false := by
      simp only [inBlock, decide_eq_false_iff_not, not_and, not_lt]
      intro hle
      omega
    have hrest := ih (acc + blockDur tc b) f (fun x hx => hd x (by simp [hx])) (by omega)
    simp only [activeCount] at hrest
    rw [hrest, hhead]
    simp

theorem activeCount_after (tc : TimingConsts) :
    ∀ (bs : List (ℕ × ℚ)) (acc f : ℤ), (∀ b ∈ bs, 0 < blockDur tc b) →
      acc + sumDurs tc bs ≤ f → activeCount (mkTimings tc bs acc).1 f = 0 := by
  intro bs
  induction bs with
  | nil => intro acc f _ _; simp [mkTimings, activeCount]
  | cons b rest ih =>
    intro acc f hd hf
    have hb := hd b (by simp)
    have hrest0 : 0 ≤ sumDurs tc rest := sumDurs_nonneg tc rest fun x hx => hd x (by simp [hx])
    rw [sumDurs_cons] at hf
    rw [mkTimings_cons]
    simp only [activeCount, List.countP_cons]
    have hhead : inBlock f ⟨acc, blockDur tc b, (b.1 : ℤ) * tc.lineGap + tc.lineFade,
        jsRound (b.2 * 30)⟩ = false := by
      simp only [inBlock, decide_eq_false_iff_not, not_and, not_lt]
      intro hle
      omega
    have hrest := ih (acc + blockDur tc b) f (fun x hx => hd x (by simp [hx])) (by omega)
    simp only [activeCount] at hrest
    rw [hrest, hhead]
    simp

theorem activeCount_inside (tc : TimingConsts) :
    ∀ (bs : List (ℕ × ℚ)) (acc f : ℤ), (∀ b ∈ bs, 0 < blockDur tc b) →
      acc ≤ f → f < acc + sumDurs tc bs → activeCount (mkTimings tc bs acc).1 f = 1 := by
  intro bs
  induction bs with
  | nil => intro acc f _ h1 h2; simp [sumDurs] at h2; omega
  | cons b rest ih =>
    intro acc f hd h1 h2
    have hb := hd b (by simp)
    have hrestPos : ∀ x ∈ rest, 0 < blockDur tc x := fun x hx => hd x (by simp [hx])
    rw [sumDurs_cons] at h2
    rw [mkTimings_cons]
    simp only [activeCount, List.countP_cons]
    by_cases hf : f < acc + blockDur tc b
    · have hhead : inBlock f ⟨acc, blockDur tc b, (b.1 : ℤ) * tc.lineGap + tc.lineFade,
          jsRound (b.2 * 30)⟩ = true := by
        simp only [inBlock, decide_eq_true_eq]
        exact ⟨h1, by omega⟩
      have hrest := activeCount_before tc rest (acc + blockDur tc b) f hrestPos (by omega)
      simp only [activeCount] at hrest
      rw [hrest, hhead]
      simp
    · have hhead : inBlock f ⟨acc, blockDur tc b, (b.1 : ℤ) * tc.lineGap + tc.lineFade,
          jsRound (b.2 * 30)⟩ = false := by
        simp only [inBlock, decide_eq_false_iff_not, not_and, not_lt]
        intro _
        omega
      have hrest := ih (acc + blockDur tc b) f hrestPos (by omega) (by omega)
      simp only [activeCount] at hrest
      rw [hrest, hhead]
      simp

theorem mkTimings_head_start (tc : TimingConsts) :
    ∀ (bs : List (ℕ × ℚ)) (acc : ℤ) (bt : BlockTiming),
      (mkTimings tc bs acc).1[0]? = some bt → bt.start = acc := by
  intro bs acc bt h
  cases bs with
  | nil => simp [mkTimings] at h
  | cons b rest =>
    simp only [mkTimings, List.getElem?_cons_zero, Option.some.injEq] at h
    rw [← h]

theorem mkTimings_consecutive (tc : TimingConsts) :
    ∀ (bs : List (ℕ × ℚ)) (acc : ℤ) (i : ℕ) (bt bt' : BlockTiming),
      (mkTimings tc bs acc).1[i]? = some bt →
      (mkTimings tc bs acc).1[i + 1]? = some bt' →
      bt'.start = bt.start + bt.duration := by
  intro bs
  induction bs with
  | nil => intro acc i bt bt' h _; simp [mkTimings] at h
  | cons b rest ih =>
    intro acc i bt bt' h h'
    match i with
    | 0 =>
      simp only [mkTimings, List.getElem?_cons_zero, Option.some.injEq] at h
      simp only [mkTimings, List.getElem?_cons_succ] at h'
      have := mkTimings_head_start tc rest _ _ h'
      rw [this, ← h]
    | j + 1 =>
      simp only [mkTimings, List.getElem?_cons_succ] at h h'
      exact ih _ j bt bt' h h'

/-- C2 (amended): the timing intervals are consecutive (hence disjoint),
every frame in `[0, Σ durations)` is covered by exactly one block, frames in
the 30-frame tail padding are covered by none, and
`totalFrames = Σ durations + 30`. -/
theorem c2_timeline (tc : TimingConsts) (bs : List (ℕ × ℚ))
    (hd : ∀ b ∈ bs, 0 < blockDur tc b) :
    (∀ (i : ℕ) (bt bt' : BlockTiming),
       (mkTimings tc bs 0).1[i]? = some bt →
       (mkTimings tc bs 0).1[i + 1]? = some bt' →
       bt'.start = bt.start + bt.duration) ∧
    (∀ f : ℤ, 0 ≤ f → f < sumDurs tc bs → activeCount (mkTimings tc bs 0).1 f = 1) ∧
    (∀ f : ℤ, sumDurs tc bs ≤ f → activeCount (mkTimings tc bs 0).1 f = 0) ∧
    totalFramesOf tc bs = sumDurs tc bs + 30 := by
  refine ⟨fun i bt bt' h h' => mkTimings_consecutive tc bs 0 i bt bt' h h',
          fun f h1 h2 => activeCount_inside tc bs 0 f hd h1 (by omega),
          fun f h1 => activeCount_after tc bs 0 f hd (by omega),
          ?_⟩
  unfold totalFramesOf
  rw [mkTimings_snd]
  omega

/-- C2 witness: coverage, tail-padding emptiness and the total at `blocks0`. -/
theorem c2_witness :
    activeCount (mkTimings v2Consts blocks0 0).1 5 = 1 ∧
    activeCount (mkTimings v2Consts blocks0 0).1 (sumDurs v2Consts blocks0) = 0 ∧
    totalFramesOf v2Consts blocks0 = sumDurs v2Consts blocks0 + 30 :=
  have h := c2_timeline v2Consts blocks0 (by
    intro b hb
    simp only [blocks0, List.mem_cons, List.not_mem_nil, or_false] at hb
    rcases hb with rfl | rfl <;> norm_num [blockDur, jsRound, v2Consts])
  ⟨h.2.1 5 (by norm_num) (by norm_num [sumDurs, blockDur, jsRound, v2Consts, blocks0]),
   h.2.2.1 _ le_rfl, h.2.2.2⟩

/-- C2 counterexample: with the single block `(1 line, hold 1 s)` the claim's
totality over `[0, totalFrames)` fails — frame 66 lies in `[0, 96)` but in no
block's interval (it falls in the 30-frame tail padding). -/
theorem c2_counterexample :
    (0 : ℤ) ≤ 66 ∧ (66 : ℤ) < totalFramesOf v2Consts [(1, 1)] ∧
    activeCount (mkTimings v2Consts [(1, 1)] 0).1 66 = 0 := by
  refine ⟨by norm_num, ?_, ?_⟩ <;>
    norm_num [totalFramesOf, mkTimings, activeCount, inBlock, jsRound, v2Consts,
      List.countP_cons]

/-! ### Filesystem lemmas (C7, C8) -/

theorem FS.get_set_eq (fs : FS) (p : String) (c : Content) :
    (fs.set p c).get p = some c := by
  simp [FS.set, FS.get, List.find?_cons]

theorem FS.get_filter_ne (p p' : String) (h : p' ≠ p) :
    ∀ fs : FS, FS.get (List.filter (fun e => e.1 != p) fs) p' = FS.get fs p' := by
  intro fs
  induction fs with
  | nil => rfl
  | cons e rest ih =>
    by_cases he : e.1 = p
    · have h1 : (e.1 != p) = false := by simp [he]
      have h2 : (e.1 == p') = false := by
        rw [he]
        simp only [beq_eq_false_iff_ne, ne_eq]
        exact fun hc => h hc.symm
      simp only [FS.get, List.filter_cons, h1, List.find?_cons, h2] at *
      simpa [FS.get] using ih
    · by_cases he' : e.1 = p'
      · have h1 : (e.1 != p) = true := by simp [he]
        have h2 : (e.1 == p') = true := by simp [he']
        simp [FS.get, List.filter_cons, h1, List.find?_cons, h2]
      · have h1 : (e.1 != p) = true := by simp [he]
        have h2 : (e.1 == p') = false := by simp [he']
        simp only [FS.get, List.filter_cons, h1, if_true, List.find?_cons, h2] at *
        simpa [FS.get] using ih

theorem FS.get_set_ne (fs : FS) (p p' : String) (c : Content) (h : p' ≠ p) :
    (fs.set p c).get p' = fs.get p' := by
  have h2 : (p == p') = false := by
    simp only [beq_eq_false_iff_ne, ne_eq]
    exact fun hc => h hc.symm
  simp only [FS.set, FS.get, List.find?_cons, h2]
  exact FS.get_filter_ne p p' h fs

theorem FS.get_remove_ne (fs : FS) (p p' : String) (h : p' ≠ p) :
    (fs.remove p).get p' = fs.get p' :=
  FS.get_filter_ne p p' h fs

theorem FS.get_rename_dst (fs : FS) (src dst : String) (c : Content)
    (hsrc : fs.get src = some c) : (fs.rename src dst).get dst = some c := by
  simp only [FS.rename, hsrc]
  exact FS.get_set_eq _ dst c

/-- C7 (amended): when the encoder exits non-zero, the v2 run fails with the
diagnostic `ffmpeg exited with code …` carrying the tail of the process's
stderr, and the intended output path holds no file — the raw stream was
encoded to the separate `_silent.mp4` path. -/
theorem c7_encode_failure (out : String) (code : ℤ) (stderr : String) (fs : FS)
    (hc : code ≠ 0) (hout : fs.get out = none) (hne : silentPathOf out ≠ out) :
    (encodeRunV2 out code stderr fs).1 =
      Except.error ("ffmpeg exited with code " ++ toString code ++ "\n" ++
        lastChars 500 stderr) ∧
    (encodeRunV2 out code stderr fs).2.get out = none := by
  unfold encodeRunV2
  simp only [hc, if_false, reduceIte]
  refine ⟨by trivial, ?_⟩
  rw [FS.get_set_ne _ _ _ _ (fun h => hne h.symm)]
  exact hout

/-- C7 witness: concrete failing run of the v2 encode stage. -/
theorem c7_witness :
    (encodeRunV2 "render.mp4" 1 "boom" []).1 =
      Except.error ("ffmpeg exited with code " ++ toString (1 : ℤ) ++ "\n" ++
        lastChars 500 "boom") ∧
    (encodeRunV2 "render.mp4" 1 "boom" []).2.get "render.mp4" = none :=
  c7_encode_failure "render.mp4" 1 "boom" [] (by decide) rfl (by decide)

/-- C7 counterexample: the v1 renderer spawns ffmpeg writing **directly to
the intended output path**, so when the encoder exits non-zero the run fails
but an incomplete file is left at the output path — contradicting the
claim's "no partially written file at the intended output path /
temporary-path-then-rename" part. -/
theorem c7_counterexample :
    (encodeRunV1 "render.mp4" 1 "boom" []).1 =
      Except.error ("ffmpeg exited with code 1\n" ++ lastChars 500 "boom") ∧
    (encodeRunV1 "render.mp4" 1 "boom" []).2.get "render.mp4" =
      some Content.incompleteData := by
  exact ⟨rfl, rfl⟩

/-- C8: whenever the sonification step throws, finds no audio file, or the
mux step fails, the render still succeeds and the file at the output path is
the silent video moved into place by a rename — byte-for-byte the
intermediate artifact, in both the v2 and the v4 stage. -/
theorem c8_audio_fallback (out : String) (son : SonifyOutcome) (muxFails : Bool)
    (fs : FS)
    (hsil : fs.get (silentPathOf out) = some Content.silentVideo)
    (hne : silentPathOf out ≠ out)
    (hfail : (∃ m, son = .threw m) ∨ son = .ranButNoWav ∨ muxFails = true)
    (hwav : ∀ wp, son = .wavAt wp → wp ≠ silentPathOf out) :
    (audioStageV2 out son muxFails fs).1 = true ∧
    (audioStageV2 out son muxFails fs).2.get out = some Content.silentVideo ∧
    (audioStageV4 out muxFails fs).1 = true ∧
    (muxFails = true →
      (audioStageV4 out muxFails fs).2.get out = some Content.silentVideo) := by
  refine ⟨?_, ?_, ?_, ?_⟩
  · cases son <;> cases muxFails <;> simp [audioStageV2]
  · cases son with
    | threw m =>
      simp only [audioStageV2, hsil, Option.isSome_some, if_true, reduceIte]
      exact FS.get_rename_dst fs _ out _ hsil
    | ranButNoWav =>
      simp only [audioStageV2]
      exact FS.get_rename_dst fs _ out _ hsil
    | wavAt wp =>
      have hmux : muxFails = true := by
        rcases hfail with ⟨m, hm⟩ | hm | hm
        · exact absurd hm (by simp)
        · exact absurd hm (by simp)
        · exact hm
      have hwp : wp ≠ silentPathOf out := hwav wp rfl
      simp only [audioStageV2, hmux, if_true, reduceIte]
      have h1 : (fs.set wp Content.audioWav).get (silentPathOf out) =
          some Content.silentVideo := by
        rw [FS.get_set_ne _ _ _ _ (fun h => hwp h.symm)]
        exact hsil
      have h2 : ((fs.set wp Content.audioWav).set out Content.incompleteData).get
          (silentPathOf out) = some Content.silentVideo := by
        rw [FS.get_set_ne _ _ _ _ hne]
        exact h1
      simp only [h2, Option.isSome_some, if_true, reduceIte]
      exact FS.get_rename_dst _ _ out _ h2
  · cases muxFails <;> simp [audioStageV4]
  · intro hmux
    simp only [audioStageV4, hmux, if_true, reduceIte]
    have h2 : (fs.set out Content.incompleteData).get (silentPathOf out) =
        some Content.silentVideo := by
      rw [FS.get_set_ne _ _ _ _ hne]
      exact hsil
    simp only [h2, Option.isSome_some, if_true, reduceIte]
    exact FS.get_rename_dst _ _ out _ h2

/-- C8 witness: mux failure over a filesystem holding the silent video. -/
theorem c8_witness :
    (audioStageV2 "render.mp4" (.wavAt "a.wav") true fsSilent).1 = true ∧
    (audioStageV2 "render.mp4" (.wavAt "a.wav") true fsSilent).2.get "render.mp4" =
      some Content.silentVideo ∧
    (audioStageV4 "render.mp4" true fsSilent).1 = true ∧
    (true = true →
      (audioStageV4 "render.mp4" true fsSilent).2.get "render.mp4" =
        some Content.silentVideo) :=
  c8_audio_fallback "render.mp4" (.wavAt "a.wav") true fsSilent (by decide)
    (by decide) (Or.inr (Or.inr rfl)) (by intro wp h; cases h; decide)

/-! ### World update invariant (C5) -/

/-- C5: one `updateNodes` call leaves the connection and ring sets untouched,
preserves the node and particle counts, keeps `nodes[0]` (the center) fixed,
moves every other node only by advancing its angle by its fixed speed and
re-deriving `x, y` on its fixed orbital radius around the center, and
advances each particle by its fixed velocity with wraparound at the frame's
bounding box (all other fields unchanged). -/
theorem c5_update_invariant (cosF sinF : ℚ → ℚ) (w : World) :
    (updateNodes cosF sinF w).connections = w.connections ∧
    (updateNodes cosF sinF w).rings = w.rings ∧
    (updateNodes cosF sinF w).nodes.length = w.nodes.length ∧
    (updateNodes cosF sinF w).particles.length = w.particles.length ∧
    (∀ n0 : Node, w.nodes[0]? = some n0 →
      (updateNodes cosF sinF w).nodes[0]? = some n0) ∧
    (∀ (i : ℕ) (n : Node), w.nodes[i + 1]? = some n →
      (updateNodes cosF sinF w).nodes[i + 1]? =
        some { n with angle := n.angle + n.speed,
                      x := CX + cosF (n.angle + n.speed) * n.orbit,
                      y := CY + sinF (n.angle + n.speed) * n.orbit }) ∧
    (∀ (i : ℕ) (p : Particle), w.particles[i]? = some p →
      (updateNodes cosF sinF w).particles[i]? =
        some { p with
          x := if p.x + p.vx < 0 then Wq else if p.x + p.vx > Wq then 0 else p.x + p.vx,
          y := if p.y + p.vy < 0 then Hq else if p.y + p.vy > Hq then 0 else p.y + p.vy,
          life := p.life + 0.003 }) := by
  refine ⟨rfl, rfl, ?_, ?_, ?_, ?_, ?_⟩
  · unfold updateNodes
    cases w.nodes with
    | nil => rfl
    | cons c rest => simp
  · unfold updateNodes
    simp
  · intro n0 h
    unfold updateNodes
    cases hn : w.nodes with
    | nil => rw [hn] at h; simp at h
    | cons c rest =>
      rw [hn] at h
      simp only [List.getElem?_cons_zero, Option.some.injEq] at h
      simp [hn, ← h]
  · intro i n h
    unfold updateNodes
    cases hn : w.nodes with
    | nil => rw [hn] at h; simp at h
    | cons c rest =>
      rw [hn] at h
      simp only [List.getElem?_cons_succ] at h
      simp only [hn, List.getElem?_cons_succ, List.getElem?_map, h, Option.map_some]
      rfl
  · intro i p h
    unfold updateNodes
    simp only [List.getElem?_map, h, Option.map_some]
    rfl

/-- C5 witness: the invariant evaluated on `world0`. -/
theorem c5_witness :
    (updateNodes (fun _ => (0 : ℚ)) (fun _ => (0 : ℚ)) world0).connections =
      world0.connections ∧
    (updateNodes (fun _ => (0 : ℚ)) (fun _ => (0 : ℚ)) world0).nodes[1]? =
      some { node1 with angle := node1.angle + node1.speed,
                        x := CX + (fun _ => (0 : ℚ)) (node1.angle + node1.speed) * node1.orbit,
                        y := CY + (fun _ => (0 : ℚ)) (node1.angle + node1.speed) * node1.orbit } ∧
    (updateNodes (fun _ => (0 : ℚ)) (fun _ => (0 : ℚ)) world0).particles[0]? =
      some { p0 with
        x := if p0.x + p0.vx < 0 then Wq else if p0.x + p0.vx > Wq then 0 else p0.x + p0.vx,
        y := if p0.y + p0.vy < 0 then Hq else if p0.y + p0.vy > Hq then 0 else p0.y + p0.vy,
        life := p0.life + 0.003 } :=
  have h := c5_update_invariant (fun _ => (0 : ℚ)) (fun _ => (0 : ℚ)) world0
  ⟨h.1, h.2.2.2.2.2.1 0 node1 rfl, h.2.2.2.2.2.2 0 p0 rfl⟩

/-! ### CookieAnalyzer lemmas (C10) -/

theorem ckLifetime_trackerCookies (now : ℚ) (c : JsCookie) (a : CkAccum) :
    (ckLifetime now c a).trackerCookies = a.trackerCookies := by
  unfold ckLifetime
  split
  · rfl
  · split
    · dsimp only
      split
      · rfl
      · split <;> rfl
    · rfl

theorem ckClassify_trackerCookies_len (cat : String → Option TrackerCat)
    (a : CkAccum) (c : JsCookie) :
    (ckClassify cat a c).trackerCookies.length ≤ a.trackerCookies.length + 1 := by
  rcases hcat : cat (stripDot c.domain) with _ | cc <;> simp [ckClassify, hcat]

theorem foldl_ckStep_len (cat : String → Option TrackerCat) (now : ℚ) :
    ∀ (cs : List JsCookie) (a : CkAccum),
      (cs.foldl (ckStep cat now) a).trackerCookies.length ≤
        a.trackerCookies.length + cs.length := by
  intro cs
  induction cs with
  | nil => intro a; simp
  | cons c rest ih =>
    intro a
    have h1 : (ckStep cat now a c).trackerCookies.length ≤ a.trackerCookies.length + 1 := by
      unfold ckStep
      rw [ckLifetime_trackerCookies]
      exact ckClassify_trackerCookies_len cat a c
    calc (List.foldl (ckStep cat now) (ckStep cat now a c) rest).trackerCookies.length
        ≤ (ckStep cat now a c).trackerCookies.length + rest.length := ih _
      _ ≤ a.trackerCookies.length + 1 + rest.length := by omega
      _ = a.trackerCookies.length + (c :: rest).length := by simp; omega

/-- C10: `analyze` is total on every cookie list; on the empty list the
tracker percentage is `0`; the percentage is `0` when `total = 0` and
`round(trackerCount/total*100)` otherwise (the division is guarded); and the
tracker count never exceeds the total, for every tracker categorizer. -/
theorem c10_analyze_total (cat : String → Option TrackerCat) (now : ℚ)
    (cookies : List JsCookie) :
    (analyze cat now cookies).total = cookies.length ∧
    (analyze cat now []).trackerPercentage = 0 ∧
    (analyze cat now cookies).trackerCount ≤ (analyze cat now cookies).total ∧
    (analyze cat now cookies).trackerPercentage =
      (if (analyze cat now cookies).total = 0 then 0
       else round (((analyze cat now cookies).trackerCount : ℚ) /
         ((analyze cat now cookies).total : ℚ) * 100)) := by
  refine ⟨rfl, rfl, ?_, ?_⟩
  · have h := foldl_ckStep_len cat now cookies ckInit
    simp only [ckInit, List.length_nil] at h
    simpa [analyze] using h
  · rcases Nat.eq_zero_or_pos cookies.length with h0 | hpos
    · simp [analyze, h0]
    · simp [analyze, Nat.pos_iff_ne_zero.mp hpos, hpos]

/-! ### Determinism (C1) -/

/-- C1: the schedule (block builder + scared-timing hold assignment under
`srand(seed)`) and the procedural world generation are pure functions of the
Profile Record, the seed derived from it, and the fixed platform primitives:
two runs on equal inputs produce identical block lists, identical hold
durations, identical timings, and identical node/connection/particle/ring
sets. -/
theorem c1_determinism (cosF sinF sqrtF : ℚ → ℚ) (piQ : ℚ) (env : JsEnv)
    (inp₁ inp₂ : MonologInput) (h : inp₁ = inp₂) :
    scheduleV4 env inp₁ = scheduleV4 env inp₂ ∧
    timingsV4 env inp₁ = timingsV4 env inp₂ ∧
    generateNetwork cosF sinF sqrtF piQ inp₁.entropy =
      generateNetwork cosF sinF sqrtF piQ inp₂.entropy := by
  subst h
  exact ⟨rfl, rfl, rfl⟩

/-- C1 witness: two runs on the concrete profile `inp0` coincide. -/
theorem c1_witness :
    scheduleV4 env0 inp0 = scheduleV4 env0 inp0 ∧
    timingsV4 env0 inp0 = timingsV4 env0 inp0 ∧
    generateNetwork (fun _ => 0) (fun _ => 0) (fun _ => 0) 3 inp0.entropy =
      generateNetwork (fun _ => 0) (fun _ => 0) (fun _ => 0) 3 inp0.entropy :=
  c1_determinism (fun _ => 0) (fun _ => 0) (fun _ => 0) 3 env0 inp0 inp0 rfl

/-! ### Cookie example scenario (C9) -/

/-- C9: for every Profile Record whose cookie data reports 40 cookies and 12
trackers (with the analyzer-computed `trackerPercentage = round(12/40*100) = 30`,
or absent so the builder computes the same fallback), `buildMonolog` emits the
cookie-summary block whose three lines are exactly
`"40 cookies found." / "12 belong to known trackers." / "30% surveillance."`. -/
theorem c9_cookie_scenario (env : JsEnv) (inp : MonologInput) (ck : CookieData)
    (hck : inp.fp.extensionCookies = some ck) (h40 : ck.total = 40)
    (h12 : ck.trackerCount = 12)
    (htp : ck.trackerPercentage = some 30 ∨ ck.trackerPercentage = none) :
    (⟨["40 cookies found.", "12 belong to known trackers.", "30% surveillance."],
      Importance.normal⟩ : Block) ∈ buildMonolog env inp := by
  have hline : toString (round (jsOrQ ck.trackerPercentage
      ((ck.trackerCount : ℚ) / (ck.total : ℚ) * 100))) = "30" := by
    have h30 : round (jsOrQ ck.trackerPercentage
        ((ck.trackerCount : ℚ) / (ck.total : ℚ) * 100)) = 30 := by
      rcases htp with h | h <;> rw [h, h40, h12] <;> norm_num [jsOrQ]
    rw [h30]
    rfl
  have hmem : (⟨["40 cookies found.", "12 belong to known trackers.",
      "30% surveillance."], Importance.normal⟩ : Block) ∈ sec14Cookies inp := by
    unfold sec14Cookies
    rw [hck]
    dsimp only
    have hpos : ck.total > 0 := by omega
    rw [if_pos hpos]
    have hhead : mkBlock [toString ck.total ++ " cookies found.",
        toString ck.trackerCount ++ " belong to known trackers.",
        toString (round (jsOrQ ck.trackerPercentage
          ((ck.trackerCount : ℚ) / (ck.total : ℚ) * 100))) ++ "% surveillance."]
        Importance.normal =
        ⟨["40 cookies found.", "12 belong to known trackers.", "30% surveillance."],
         Importance.normal⟩ := by
      rw [hline, h40, h12]
      rfl
    exact List.mem_append_left _ (hhead ▸ List.mem_cons_self _ _)
  simp only [buildMonolog]
  exact List.mem_append_left _ (List.mem_append_left _ (List.mem_append_left _
    (List.mem_append_left _ (List.mem_append_right _ hmem))))

/-- C9 witness: the cookie-summary block at the concrete profile `inp0`
(40 cookies, 12 trackers, analyzer percentage 30). -/
theorem c9_witness :
    (⟨["40 cookies found.", "12 belong to known trackers.", "30% surveillance."],
      Importance.normal⟩ : Block) ∈ buildMonolog env0 inp0 :=
  c9_cookie_scenario env0 inp0 cookieData0 rfl rfl rfl (Or.inl rfl)

end Fingerprint
